import Mathlib

/-!
# Buyer-site: verification of the checkout / webhook backends

Shallow embedding of the three server variants in this repository:

* `server.js` (the named file, first variant) — `/create-checkout-session`
  and `/webhook` routes;
* `src/unnamed/part_000` — a `/webhook` route with signature verification
  and `50.00 USD` formatting, plus a `/create-payment-intent` route;
* `src/unnamed/part_001` — a `/create-checkout-session` route with an
  `amountCents <= 0` guard and metadata construction, and a `/webhook`
  route that performs no signature verification.

JavaScript numbers are modelled as `ℚ` plus an explicit `NaN`; JS values
as a small inductive with undefined/null/number/string/boolean.  The
external Stripe SDK call `stripe.webhooks.constructEvent` is abstracted
by `constructEvent` below (per spec §4.2 it rejects when the signature
does not verify or the secret is absent); the outcomes of the other
external calls (provider session create, line-item listing, session
retrieve, Discord delivery) are inputs to the handler functions, since
the handlers only branch on success/failure of those awaits.
-/

namespace BuyerSite

/-- A JavaScript number: either NaN or a rational value.  (The repository
only adds, multiplies, rounds and compares client-supplied prices; on the
magnitudes involved IEEE doubles behave like exact rationals, so `ℚ` is
the embedding.) -/
inductive JsNum where
  | nan : JsNum
  | val : ℚ → JsNum
deriving DecidableEq, Repr

/-- The JavaScript values that can appear in the request bodies the
routes read: absent field (`undefined`), `null`, number, string, boolean. -/
inductive JsValue where
  | undefined : JsValue
  | null : JsValue
  | num : JsNum → JsValue
  | str : String → JsValue
  | bool : Bool → JsValue
deriving DecidableEq, Repr

/-- JS truthiness: `undefined`, `null`, `false`, `0`, `NaN` and `""` are
falsy, everything else truthy. -/
def JsValue.truthy : JsValue → Bool
  | .undefined => false
  | .null => false
  | .num .nan => false
  | .num (.val q) => decide (q ≠ 0)
  | .str s => decide (s ≠ "")
  | .bool b => b

/-- JS `a || b`: `a` when truthy, else `b`. -/
def jsOr (a b : JsValue) : JsValue := if a.truthy then a else b

/-- The numeric value of a list of decimal digit characters. -/
def digitsToNat (cs : List Char) : ℕ :=
  cs.foldl (fun a c => 10 * a + (c.toNat - 48)) 0

/-- Split a character list on `.` (every occurrence). -/
def splitOnDot : List Char → List (List Char)
  | [] => [[]]
  | c :: cs =>
    if c = '.' then [] :: splitOnDot cs
    else
      match splitOnDot cs with
      | [] => [[c]]
      | g :: gs => (c :: g) :: gs

/-- Parse an unsigned decimal literal (digits with at most one interior
point); anything else (for instance `"abc"`) is `NaN`. -/
def parseDecimalChars (cs : List Char) : JsNum :=
  match splitOnDot cs with
  | [w] => if w ≠ [] ∧ w.all Char.isDigit then .val (digitsToNat w) else .nan
  | [w, f] =>
    if w ≠ [] ∧ f ≠ [] ∧ w.all Char.isDigit ∧ f.all Char.isDigit then
      .val ((digitsToNat w : ℚ) + (digitsToNat f : ℚ) / ((10 : ℚ) ^ f.length))
    else .nan
  | _ => .nan

/-- `Number(s)` on the string shapes the claims exercise: `""` is `0`,
decimal literals parse to that rational, anything else (for instance
`"abc"`) is `NaN`.  (Exponents, signs and surrounding whitespace do not
occur in any claim and are left out.) -/
def strToNumber (s : String) : JsNum :=
  if s.toList = [] then .val 0 else parseDecimalChars s.toList

/-- JS `ToNumber` coercion, as applied by `*`: numbers unchanged,
`undefined ↦ NaN`, `null ↦ 0`, booleans to `1`/`0`, strings via
`strToNumber`. -/
def JsValue.toNumber : JsValue → JsNum
  | .undefined => .nan
  | .null => .val 0
  | .num n => n
  | .bool b => .val (if b then 1 else 0)
  | .str s => strToNumber s

/-- JS multiplication: NaN propagates. -/
def jsMul : JsNum → JsNum → JsNum
  | .val a, .val b => .val (a * b)
  | _, _ => .nan

/-- `Math.round`: round half toward +∞, i.e. `⌊x + 1/2⌋`; NaN in, NaN out. -/
def jsRound : JsNum → JsNum
  | .nan => .nan
  | .val q => .val ((⌊q + 1/2⌋ : ℤ) : ℚ)

/-- JS `a <= b`: any comparison involving NaN is false. -/
def jsLe : JsNum → JsNum → Bool
  | .val a, .val b => decide (a ≤ b)
  | _, _ => false

/-- The round-half-up conversion of a price in major units to minor
units, as the spec states it: `round(price * 100)` with halves going up. -/
def roundHalfUpTimes100 (q : ℚ) : ℤ := ⌊q * 100 + 1/2⌋

/-! ## `server.js` — `POST /create-checkout-session` -/

/-- Request body of the `server.js` route `/create-checkout-session`:
`const { itemPrice, itemName } = req.body;` — an absent field
destructures to `undefined`. -/
structure OrderBody where
  itemPrice : JsValue
  itemName : JsValue
deriving DecidableEq, Repr

/-- The argument `server.js` hands to
`stripe.checkout.sessions.create`: the fields the claims look at
(`unit_amount: priceInCents`, `product_data.name: finalItemName`,
`currency: "usd"`, `quantity: 1`). -/
structure SessionRequest where
  unit_amount : JsNum
  productName : JsValue
  currency : String
  quantity : Nat
deriving DecidableEq, Repr

/-- Result of a `/create-checkout-session` call: the HTTP status sent
back, and the request handed to the provider (`none` when
`stripe.checkout.sessions.create` was never reached). -/
structure CreateResult where
  status : Nat
  providerRequest : Option SessionRequest
deriving DecidableEq, Repr

/-- `server.js` lines 112–147.
`finalItemPrice = itemPrice || 4.00`, `finalItemName = itemName ||
"Default Product"`, `priceInCents = Math.round(finalItemPrice * 100)`,
then `stripe.checkout.sessions.create({... unit_amount: priceInCents
...})` is always attempted; `providerOk` is the outcome of that external
await — success answers `200 { sessionId, url }`, a throw lands in the
catch and answers `500`. -/
def createCheckoutSessionServer (body : OrderBody) (providerOk : Bool) :
    CreateResult :=
  let finalItemPrice := jsOr body.itemPrice (.num (.val 4))
  let finalItemName := jsOr body.itemName (.str "Default Product")
  let priceInCents := jsRound (jsMul finalItemPrice.toNumber (.val 100))
  let req : SessionRequest :=
    { unit_amount := priceInCents, productName := finalItemName,
      currency := "usd", quantity := 1 }
  if providerOk then { status := 200, providerRequest := some req }
  else { status := 500, providerRequest := some req }

/-- The `unit_amount` handed to the provider, when a provider call was
made at all. -/
def CreateResult.requestedAmount (r : CreateResult) : Option JsNum :=
  r.providerRequest.map SessionRequest.unit_amount

/-! ## `part_001` — `POST /create-checkout-session` -/

/-- `parseFloat` on the value shapes the claims exercise: numbers parse
to themselves, `undefined`/`null`/booleans stringify to non-numeric text
and give `NaN` (so does the empty string), and strings parse as decimal
literals with an optional leading minus sign.  (the prefix-parsing of
trailing garbage done by `parseFloat` does not occur in any claim and is
left out.) -/
def parseFloatJs : JsValue → JsNum
  | .num n => n
  | .str s =>
    match s.toList with
    | '-' :: rest =>
      (match parseDecimalChars rest with
       | .val q => .val (-q)
       | .nan => .nan)
    | cs => parseDecimalChars cs
  | _ => .nan

/-- JS `v.substring(0, 500)`: defined on strings (truncate to 500
characters); on `undefined`, `null`, numbers or booleans the property
access throws a `TypeError`. -/
def jsSubstringTo500 : JsValue → Except String String
  | .str s => .ok (String.mk (s.toList.take 500))
  | _ => .error "TypeError: context.substring is not a function"

/-- Request body of the `part_001` route `/create-checkout-session`:
`const { discordUsername, finalPrice, itemType, duration, imageSize,
feature, context } = req.body;`. -/
structure Part1Body where
  discordUsername : JsValue
  finalPrice : JsValue
  itemType : JsValue
  duration : JsValue
  imageSize : JsValue
  feature : JsValue
  context : JsValue
deriving DecidableEq, Repr

/-- The argument `part_001` hands to `stripe.checkout.sessions.create`:
the fields the claims look at (`unit_amount: amountCents` and the
truncated `metadata.context`); the purely string-formatted name,
description and remaining metadata fields never branch and are not
inspected by any claim. -/
structure Part1SessionRequest where
  unit_amount : JsNum
  metadataContext : String
deriving DecidableEq, Repr

/-- Result of the `part_001` route `/create-checkout-session`. -/
structure Part1CreateResult where
  status : Nat
  providerRequest : Option Part1SessionRequest
deriving DecidableEq, Repr

/-- `part_001` lines 52–97.
`amountCents = Math.round(parseFloat(finalPrice) * 100)`; if
`amountCents <= 0` (JS comparison: false on `NaN`) the handler answers
`400` before any provider call; otherwise, inside the try block, the
`metadata` object is built — `context.substring(0, 500)` throws when
`context` is not a string, landing in the catch with a `500` before
`stripe.checkout.sessions.create` runs; otherwise the create call is
made and answers `200 { url }` on success or `500` on a provider
throw. -/
def createCheckoutSessionPart1 (body : Part1Body) (providerOk : Bool) :
    Part1CreateResult :=
  let amountCents := jsRound (jsMul (parseFloatJs body.finalPrice) (.val 100))
  if jsLe amountCents (.val 0) then
    { status := 400, providerRequest := none }
  else
    match jsSubstringTo500 body.context with
    | .error _ => { status := 500, providerRequest := none }
    | .ok ctx =>
      let req : Part1SessionRequest :=
        { unit_amount := amountCents, metadataContext := ctx }
      if providerOk then { status := 200, providerRequest := some req }
      else { status := 500, providerRequest := some req }

/-! ## Webhook events and the provider SDK boundary -/

/-- The session object carried by a webhook event (`event.data.object`):
the fields the handlers read (`id`, `amount_total` in integer minor
units, `currency`, `customer_details?.email`, `payment_status`). -/
structure StripeSession where
  id : String
  amount_total : ℤ
  currency : String
  customerEmail : Option String
  payment_status : String
deriving DecidableEq, Repr

/-- A provider event envelope: the declared type tag and the nested
session object. -/
structure StripeEvent where
  type : String
  sessionObj : StripeSession
deriving DecidableEq, Repr

/-- Modelled from the spec (§4.2) at the SDK boundary:
`stripe.webhooks.constructEvent(body, sig, secret)` recomputes the
HMAC signature of the provider and throws when it does not match or when no
secret is supplied; the cryptographic check itself is external, so it is
abstracted by the boolean `sigValid` (whether body+header verify against
the configured shared secret). -/
def constructEvent (secret : Option String) (sigValid : Bool)
    (event : StripeEvent) : Except String StripeEvent :=
  match secret with
  | none => .error "no webhook secret provided"
  | some _ =>
    if sigValid then .ok event else .error "signature verification failed"

/-- The body a webhook handler sends back: `res.json({received: true})`,
the 400 `Webhook Error: ...` text, or the 500 missing-secret text. -/
inductive WebhookRespBody where
  | receivedTrue : WebhookRespBody
  | webhookError : String → WebhookRespBody
  | secretMissing : WebhookRespBody
deriving DecidableEq, Repr

/-- Two-digit rendering of a remainder below 100 (for `.toFixed(2)`). -/
def twoDigits (n : ℕ) : String :=
  (if n < 10 then "0" else "") ++ toString n

/-- `(n / 100).toFixed(2)` for an integer `n` of minor units: the exact
two-decimal rendering (IEEE division by 100 followed by `toFixed(2)`
recovers it on the minor-unit magnitudes involved). -/
def toFixedTwoOfCents (n : ℤ) : String :=
  (if n < 0 then "-" else "") ++
    toString (n.natAbs / 100) ++ "." ++ twoDigits (n.natAbs % 100)

/-- JS `a || b` on an optional string, as in
`session.customer_details?.email || "N/A"`: `undefined` and the empty
string fall through to the default. -/
def jsOrStr : Option String → String → String
  | none, d => d
  | some s, d => if s = "" then d else s

/-- JS `toUpperCase` (ASCII, as the currency codes here are). -/
def jsToUpper (s : String) : String := String.mk (s.toList.map Char.toUpper)

/-! ## `server.js` — `POST /webhook` -/

/-- A Stripe line item as `server.js` reads it:
`item?.description || item?.price?.product?.name || "Unknown Item"`. -/
structure LineItem where
  description : Option String
  productName : Option String
deriving DecidableEq, Repr

/-- The `server.js` item-name fallback chain over the optional first line
item (`lineItems.data.length > 0 ? lineItems.data[0] : null`). -/
def itemNameOf : Option LineItem → String
  | none => "Unknown Item"
  | some it => jsOrStr it.description (jsOrStr it.productName "Unknown Item")

/-- The Discord payload `server.js` builds (the embed fields the claims
look at: product name, `$`-prefixed two-decimal amount, customer email,
session id). -/
structure ServerDiscordPayload where
  username : String
  itemName : String
  amountPaid : String
  customerEmail : String
  sessionId : String
deriving DecidableEq, Repr

/-- Result of a webhook call: HTTP status, response body, and the
payload handed to `axios.post(DISCORD_WEBHOOK_URL, ...)` (`none` when
the Notifier was never invoked). -/
structure WebhookResult (P : Type) where
  status : Nat
  body : WebhookRespBody
  notifierPayload : Option P
deriving DecidableEq, Repr

/-- `server.js` lines 32–94.
Missing `STRIPE_WEBHOOK_SECRET` answers `500` before anything else;
a `constructEvent` throw answers `400 Webhook Error`; a verified
`checkout.session.completed` event lists line items (`lineItems` is the
outcome of that external await — a throw there is caught, skipping the
notification), builds the Discord payload and posts it (`notifierOk` is
the delivery outcome; a throw is caught and only logged); every verified
event, acted on or not, ends in `res.json({received: true})`. -/
def webhookServer (secret : Option String) (sigValid : Bool)
    (event : StripeEvent) (lineItems : Except String (Option LineItem))
    (notifierOk : Bool) : WebhookResult ServerDiscordPayload :=
  match secret with
  | none =>
    { status := 500, body := .secretMissing, notifierPayload := none }
  | some sec =>
    match constructEvent (some sec) sigValid event with
    | .error msg =>
      { status := 400, body := .webhookError msg, notifierPayload := none }
    | .ok ev =>
      if ev.type = "checkout.session.completed" then
        match lineItems with
        | .error _ =>
          { status := 200, body := .receivedTrue, notifierPayload := none }
        | .ok item =>
          let s := ev.sessionObj
          let payload : ServerDiscordPayload :=
            { username := "Stripe Purchase Bot",
              itemName := itemNameOf item,
              amountPaid := "$" ++ toFixedTwoOfCents s.amount_total,
              customerEmail := jsOrStr s.customerEmail "N/A",
              sessionId := s.id }
          { status := 200, body := .receivedTrue,
            notifierPayload := some payload }
      else
        { status := 200, body := .receivedTrue, notifierPayload := none }

/-! ## `part_000` — `POST /webhook` -/

/-- The Discord payload `part_000` builds: its description interpolates
the two-decimal amount and the upper-cased currency
(`A new payment of **${amountInDollars} ${currency}** has been
processed.`), and its fields carry session id, customer email and the
upper-cased payment status. -/
structure Part0DiscordPayload where
  username : String
  description : String
  sessionId : String
  customerEmail : String
  paymentStatus : String
deriving DecidableEq, Repr

/-- `part_000` lines 31–80.
No missing-secret branch exists: `constructEvent` is called directly and
any throw (invalid signature, or missing secret) answers `400 Webhook
Error`; a verified `checkout.session.completed` event builds the payload
from `(session.amount_total / 100).toFixed(2)` and
`session.currency.toUpperCase()` and posts it (`notifierOk` is the
delivery outcome, caught and only logged); every verified event ends in
`res.json({received: true})`. -/
def webhookPart0 (secret : Option String) (sigValid : Bool)
    (event : StripeEvent) (notifierOk : Bool) :
    WebhookResult Part0DiscordPayload :=
  match constructEvent secret sigValid event with
  | .error msg =>
    { status := 400, body := .webhookError msg, notifierPayload := none }
  | .ok ev =>
    if ev.type = "checkout.session.completed" then
      let s := ev.sessionObj
      let amountInDollars := toFixedTwoOfCents s.amount_total
      let currency := jsToUpper s.currency
      let payload : Part0DiscordPayload :=
        { username := "Stripe Custom Store Bot",
          description := "A new payment of **" ++ amountInDollars ++ " " ++
            currency ++ "** has been processed.",
          sessionId := s.id,
          customerEmail := jsOrStr s.customerEmail "N/A",
          paymentStatus := jsToUpper s.payment_status }
      { status := 200, body := .receivedTrue, notifierPayload := some payload }
    else
      { status := 200, body := .receivedTrue, notifierPayload := none }

/-! ## `part_001` — `POST /webhook` (no signature verification) -/

/-- The metadata echoed back on a retrieved session in `part_001`
(string values, as Stripe metadata is). -/
structure Part1Meta where
  discordUsername : String
  itemType : String
  duration : String
  imageSize : String
  features : String
  context : String
deriving DecidableEq, Repr

/-- The session `part_001` re-fetches with
`stripe.checkout.sessions.retrieve(session.id)`. -/
structure RetrievedSession where
  amount_total : ℤ
  metadata : Part1Meta
  payment_method_types : List String
deriving DecidableEq, Repr

/-- The payload `sendDiscordMessage` posts in `part_001`: the embed
fields built from the order data (`mainOption` is `duration` for a
`Video` item type, else `imageSize`). -/
structure Part1DiscordPayload where
  content : String
  discordUser : String
  itemType : String
  mainOption : String
  features : String
  totalPaid : String
  paymentMethod : String
  context : String
deriving DecidableEq, Repr

/-- `part_001` lines 22–49: `sendDiscordMessage(orderData)` shapes the
payload posted to the Discord webhook. -/
def sendDiscordMessage (full : RetrievedSession) : Part1DiscordPayload :=
  let m := full.metadata
  { content := "🚨 **NEW ORDER RECEIVED!** 🚨",
    discordUser := "**" ++ m.discordUsername ++ "**",
    itemType := m.itemType,
    mainOption := if m.itemType = "Video" then m.duration else m.imageSize,
    features := jsOrStr (some m.features) "None",
    totalPaid := "$" ++ toFixedTwoOfCents full.amount_total,
    paymentMethod := jsOrStr full.payment_method_types.head? "Stripe/Card",
    context := jsOrStr (some m.context) "*(None provided)*" }

/-- `part_001` lines 100–138.
`const event = req.body;` — the handler performs NO signature
verification (its own comment: a real implementation requires it) and
never reads a signing secret.  On a `checkout.session.completed` type it
awaits `stripe.checkout.sessions.retrieve` OUTSIDE any try block
(`retrieve` is that external outcome; a throw there is an unhandled
rejection, modelled as `none` — no response is sent by the handler),
then invokes `sendDiscordMessage` inside a try whose catch only logs
(`notifierOk` is the delivery outcome).  Every handled path ends in
`res.status(200).send({ received: true })`. -/
def webhookPart1 (event : StripeEvent)
    (retrieve : Except String RetrievedSession) (notifierOk : Bool) :
    Option (WebhookResult Part1DiscordPayload) :=
  if event.type = "checkout.session.completed" then
    match retrieve with
    | .error _ => none
    | .ok full =>
      some { status := 200, body := .receivedTrue,
             notifierPayload := some (sendDiscordMessage full) }
  else
    some { status := 200, body := .receivedTrue, notifierPayload := none }

/-! ## Concrete fixtures used in closed evaluations -/

/-- A concrete completed-checkout session object. -/
def usdSession : StripeSession :=
  { id := "cs_test_123", amount_total := 5000, currency := "usd",
    customerEmail := some "buyer@example.com", payment_status := "paid" }

/-- A concrete `checkout.session.completed` event envelope. -/
def completedEvent : StripeEvent :=
  { type := "checkout.session.completed", sessionObj := usdSession }

/-- A concrete event whose type is not the recognized paid type. -/
def ignoredEvent : StripeEvent :=
  { type := "invoice.paid", sessionObj := usdSession }

/-- A concrete retrieved session as `part_001` re-fetches it. -/
def retrievedOk : RetrievedSession :=
  { amount_total := 5000,
    metadata :=
      { discordUsername := "buyer#1", itemType := "Video",
        duration := "30s", imageSize := "N/A", features := "None",
        context := "hi" },
    payment_method_types := ["card"] }

/-- A concrete `part_001` order body that passes the amount guard and has
a string context. -/
def okPart1Body : Part1Body :=
  { discordUsername := .str "buyer#1", finalPrice := .num (.val 4),
    itemType := .str "Video", duration := .str "30s",
    imageSize := .undefined, feature := .undefined, context := .str "hi" }

/-- A concrete `part_001` order body with no `context` field and no
price. -/
def noContextBody : Part1Body :=
  { discordUsername := .str "buyer#1", finalPrice := .undefined,
    itemType := .str "Video", duration := .str "30s",
    imageSize := .undefined, feature := .undefined, context := .undefined }

/-- A concrete `part_001` order body with no `context` field and an
explicit zero price. -/
def zeroPriceNoContextBody : Part1Body :=
  { discordUsername := .undefined, finalPrice := .num (.val 0),
    itemType := .undefined, duration := .undefined,
    imageSize := .undefined, feature := .undefined, context := .undefined }

/-! ## Claims -/

/-- C1: the claim says every webhook request that fails signature
verification is answered 400 with the Notifier never invoked.  The
`part_001` handler, however — against its own comment that a real
implementation requires signature verification — verifies nothing: a
forged `checkout.session.completed` body with no valid signature is
processed, the Discord notifier IS invoked, and the response is
`200 { received: true }`. -/
theorem C1_part001_processes_unverified_event :
    ∃ r, webhookPart1 completedEvent (.ok retrievedOk) true = some r ∧
      r.status = 200 ∧ r.body = .receivedTrue ∧
      r.notifierPayload = some (sendDiscordMessage retrievedOk) :=
  ⟨_, rfl, rfl, rfl, rfl⟩

/-- C2: for a verified `checkout.session.completed` event, a Notifier
delivery failure does not change the response to the provider: the
`server.js` handler result with delivery failing equals the result with
delivery succeeding and is `200 { received: true }`; the `part_001`
handler likewise still answers `200 { received: true }` with the
notifier having been invoked. -/
theorem C2_notifier_failure_keeps_ack
    (secret : String) (event : StripeEvent) (item : Option LineItem)
    (full : RetrievedSession)
    (hty : event.type = "checkout.session.completed") :
    webhookServer (some secret) true event (.ok item) false =
        webhookServer (some secret) true event (.ok item) true ∧
    (webhookServer (some secret) true event (.ok item) false).status = 200 ∧
    (webhookServer (some secret) true event (.ok item) false).body =
        .receivedTrue ∧
    webhookPart1 event (.ok full) false =
      some { status := 200, body := .receivedTrue,
             notifierPayload := some (sendDiscordMessage full) } := by
  refine ⟨rfl, ?_, ?_, ?_⟩ <;>
    simp [webhookServer, webhookPart1, constructEvent, hty]

/-- C2 witness: at the concrete completed event the theorem applies. -/
theorem C2_witness :
    completedEvent.type = "checkout.session.completed" ∧
    (webhookServer (some "whsec_k") true completedEvent (.ok none)
        false).status = 200 ∧
    webhookPart1 completedEvent (.ok retrievedOk) false =
      some { status := 200, body := .receivedTrue,
             notifierPayload := some (sendDiscordMessage retrievedOk) } :=
  ⟨rfl,
   (C2_notifier_failure_keeps_ack "whsec_k" completedEvent none retrievedOk
      rfl).2.1,
   (C2_notifier_failure_keeps_ack "whsec_k" completedEvent none retrievedOk
      rfl).2.2.2⟩

/-- C3: every verified event whose type is not
`checkout.session.completed` is acknowledged `200 { received: true }`
and the Notifier is never invoked, in both the `server.js` and the
`part_000` webhook handlers. -/
theorem C3_other_types_acked_without_notify
    (secret : String) (event : StripeEvent)
    (lineItems : Except String (Option LineItem)) (notifierOk : Bool)
    (hty : event.type ≠ "checkout.session.completed") :
    webhookServer (some secret) true event lineItems notifierOk =
      { status := 200, body := .receivedTrue, notifierPayload := none } ∧
    webhookPart0 (some secret) true event notifierOk =
      { status := 200, body := .receivedTrue, notifierPayload := none } := by
  constructor <;> simp [webhookServer, webhookPart0, constructEvent, hty]

/-- C3 witness: at a concrete `invoice.paid` event the theorem applies. -/
theorem C3_witness :
    ignoredEvent.type ≠ "checkout.session.completed" ∧
    webhookServer (some "whsec_k") true ignoredEvent (.ok none) true =
      { status := 200, body := .receivedTrue, notifierPayload := none } ∧
    webhookPart0 (some "whsec_k") true ignoredEvent true =
      { status := 200, body := .receivedTrue, notifierPayload := none } := by
  have hne : ignoredEvent.type ≠ "checkout.session.completed" := by decide
  exact ⟨hne,
    (C3_other_types_acked_without_notify "whsec_k" ignoredEvent (.ok none)
      true hne).1,
    (C3_other_types_acked_without_notify "whsec_k" ignoredEvent (.ok none)
      true hne).2⟩

/-- C4 counterexample: the claim says an unconfigured signing secret is
answered `500`; the `part_000` webhook handler has no such check — with
the secret absent, `constructEvent` throws and the handler answers
`400`, not `500`. -/
theorem C4_counterexample_part000_missing_secret_is_400 :
    (webhookPart0 none true completedEvent true).status = 400 ∧
    (webhookPart0 none true completedEvent true).status ≠ 500 :=
  ⟨rfl, by decide⟩

/-- C4 (amended): with the webhook signing secret unconfigured, the
`server.js` handler answers `500` and performs no event processing; the
`part_000` handler, which lacks the explicit check, surfaces the missing
secret as a verification failure answered `400`; in both, the Notifier
is never invoked. -/
theorem C4_missing_secret_500_server_400_part000
    (sigValid : Bool) (event : StripeEvent)
    (lineItems : Except String (Option LineItem)) (notifierOk : Bool) :
    webhookServer none sigValid event lineItems notifierOk =
      { status := 500, body := .secretMissing, notifierPayload := none } ∧
    (webhookPart0 none sigValid event notifierOk).status = 400 ∧
    (webhookPart0 none sigValid event notifierOk).notifierPayload = none := by
  refine ⟨rfl, ?_, ?_⟩ <;> simp [webhookPart0, constructEvent]

/-- C5: for every numeric price strictly greater than 0, the `server.js`
session initiator hands the provider a request whose `unit_amount` is
`round(price * 100)` rounding half up. -/
theorem C5_positive_price_unit_amount_round_half_up
    (q : ℚ) (name : JsValue) (providerOk : Bool) (hq : 0 < q) :
    (createCheckoutSessionServer
        { itemPrice := .num (.val q), itemName := name }
        providerOk).requestedAmount =
      some (.val ((roundHalfUpTimes100 q : ℤ) : ℚ)) := by
  have hne : q ≠ 0 := ne_of_gt hq
  cases providerOk <;>
    simp [createCheckoutSessionServer, CreateResult.requestedAmount, jsOr,
      JsValue.truthy, hne, JsValue.toNumber, jsMul, jsRound,
      roundHalfUpTimes100]

/-- C5 witness: price 4.00 yields `unit_amount` 400. -/
theorem C5_witness :
    (0 : ℚ) < 4 ∧
    (createCheckoutSessionServer
        { itemPrice := .num (.val 4), itemName := .undefined }
        true).requestedAmount = some (.val 400) := by
  refine ⟨by norm_num, ?_⟩
  rw [C5_positive_price_unit_amount_round_half_up 4 .undefined true
    (by norm_num)]
  norm_num [roundHalfUpTimes100]

/-- C6 counterexample: the claim says a non-numeric price falls back to
4.00; but `itemPrice = "abc"` is non-numeric yet truthy, so `||` keeps
it and the provider request carries `unit_amount` NaN, not the 400 minor
units the fallback would give. -/
theorem C6_counterexample_truthy_nonnumeric_price :
    (createCheckoutSessionServer
        { itemPrice := .str "abc", itemName := .undefined }
        true).requestedAmount = some .nan ∧
    some JsNum.nan ≠ some (JsNum.val 400) :=
  ⟨rfl, by decide⟩

/-- C6 (amended): an absent (`undefined`, hence falsy) price falls back
to 4.00 — the provider request carries `unit_amount` 400 minor units —
and an absent name falls back to the placeholder `"Default Product"`;
a truthy non-numeric price is instead passed through (see the
counterexample). -/
theorem C6_absent_fields_get_defaults
    (name price : JsValue) (providerOk : Bool) :
    (createCheckoutSessionServer
        { itemPrice := .undefined, itemName := name }
        providerOk).requestedAmount = some (.val 400) ∧
    ((createCheckoutSessionServer
        { itemPrice := price, itemName := .undefined }
        providerOk).providerRequest.map SessionRequest.productName) =
      some (.str "Default Product") := by
  cases providerOk <;> refine ⟨?_, rfl⟩ <;>
    norm_num [createCheckoutSessionServer, CreateResult.requestedAmount,
      jsOr, JsValue.truthy, JsValue.toNumber, jsMul, jsRound]

/-- C7: every verified `checkout.session.completed` event with
`amount_total = 5000` minor units and currency `"usd"` makes the
`part_000` handler hand the Notifier a payload whose description carries
the amount formatted as `50.00` and the currency upper-cased to `USD`. -/
theorem C7_formats_amount_and_currency
    (secret : String) (s : StripeSession) (notifierOk : Bool)
    (hamt : s.amount_total = 5000) (hcur : s.currency = "usd") :
    (webhookPart0 (some secret) true
        { type := "checkout.session.completed", sessionObj := s }
        notifierOk).notifierPayload =
      some { username := "Stripe Custom Store Bot",
             description :=
               "A new payment of **50.00 USD** has been processed.",
             sessionId := s.id,
             customerEmail := jsOrStr s.customerEmail "N/A",
             paymentStatus := jsToUpper s.payment_status } := by
  obtain ⟨i, a, c, e, p⟩ := s
  dsimp at hamt hcur
  subst hamt hcur
  simp only [webhookPart0, constructEvent]
  norm_num [toFixedTwoOfCents, twoDigits]
  decide

/-- C7 witness: the concrete 5000-cent usd session produces the
`50.00 USD` description. -/
theorem C7_witness :
    usdSession.amount_total = 5000 ∧ usdSession.currency = "usd" ∧
    (webhookPart0 (some "whsec_k") true
        { type := "checkout.session.completed", sessionObj := usdSession }
        true).notifierPayload =
      some { username := "Stripe Custom Store Bot",
             description :=
               "A new payment of **50.00 USD** has been processed.",
             sessionId := usdSession.id,
             customerEmail := jsOrStr usdSession.customerEmail "N/A",
             paymentStatus := jsToUpper usdSession.payment_status } :=
  ⟨rfl, rfl, C7_formats_amount_and_currency "whsec_k" usdSession true rfl rfl⟩

/-- C8 counterexample: the claim says any request that would yield
`unit_amount ≤ 0` is rejected before the provider create call; in
`server.js` a negative price (−5) is truthy, no guard exists, and the
create call is made with `unit_amount` −500 ≤ 0. -/
theorem C8_counterexample_negative_amount_reaches_provider :
    (createCheckoutSessionServer
        { itemPrice := .num (.val (-5)), itemName := .undefined }
        true).requestedAmount = some (.val (-500)) ∧
    jsLe (.val (-500)) (.val 0) = true := by
  constructor <;>
    norm_num [createCheckoutSessionServer, CreateResult.requestedAmount,
      jsOr, JsValue.truthy, JsValue.toNumber, jsMul, jsRound, jsLe]

/-- C8 (amended): the `part_001` session initiator does reject before
the provider call: whenever its create call is reached, the computed
`amountCents` did not satisfy the JS comparison `amountCents <= 0` (it
is positive, or NaN — which the JS guard lets through); `server.js` has
no such guard (see the counterexample). -/
theorem C8_part001_no_nonpositive_amount_sent
    (body : Part1Body) (providerOk : Bool) (req : Part1SessionRequest)
    (h : (createCheckoutSessionPart1 body providerOk).providerRequest =
      some req) :
    jsLe req.unit_amount (.val 0) = false := by
  unfold createCheckoutSessionPart1 at h
  by_cases hle : jsLe (jsRound (jsMul (parseFloatJs body.finalPrice)
      (.val 100))) (.val 0) = true
  · rw [if_pos hle] at h
    exact absurd h (by simp)
  · rw [if_neg hle] at h
    cases hsub : jsSubstringTo500 body.context with
    | error e =>
      rw [hsub] at h
      exact absurd h (by simp)
    | ok ctx =>
      rw [hsub] at h
      cases providerOk <;> simp only [Bool.false_eq_true, if_false, if_true,
        Option.some.injEq] at h <;> subst h <;> simpa using hle

/-- C8 witness: a 4.00 order reaches the provider with `unit_amount` 400,
which is not ≤ 0. -/
theorem C8_witness :
    (createCheckoutSessionPart1 okPart1Body true).providerRequest =
      some { unit_amount := .val 400, metadataContext := "hi" } ∧
    jsLe (Part1SessionRequest.unit_amount
      { unit_amount := .val 400, metadataContext := "hi" }) (.val 0) =
      false := by
  have h : (createCheckoutSessionPart1 okPart1Body true).providerRequest =
      some { unit_amount := .val 400, metadataContext := "hi" } := by
    unfold createCheckoutSessionPart1 okPart1Body
    norm_num [parseFloatJs, jsMul, jsRound, jsLe, jsSubstringTo500]
  exact ⟨h, C8_part001_no_nonpositive_amount_sent okPart1Body true _ h⟩

/-- C9: an explicit zero `itemPrice` is falsy, so `server.js` silently
substitutes the 4.00 fallback: the provider request carries
`unit_amount` 400 and the request is answered 200 rather than being
rejected. -/
theorem C9_zero_price_gets_fallback_session
    (name : JsValue) :
    (createCheckoutSessionServer
        { itemPrice := .num (.val 0), itemName := name }
        true).requestedAmount = some (.val 400) ∧
    (createCheckoutSessionServer
        { itemPrice := .num (.val 0), itemName := name }
        true).status = 200 := by
  refine ⟨?_, rfl⟩
  norm_num [createCheckoutSessionServer, CreateResult.requestedAmount,
    jsOr, JsValue.truthy, JsValue.toNumber, jsMul, jsRound]

/-- C10 counterexample: the claim says every `part_001` request without
a `context` field ends in the catch branch with `500`; but a body with
an explicit zero price and no context trips the `amountCents <= 0` guard
first and is answered `400`, never reaching the metadata construction. -/
theorem C10_counterexample_zero_price_no_context_is_400 :
    (createCheckoutSessionPart1 zeroPriceNoContextBody true).status = 400 ∧
    (createCheckoutSessionPart1 zeroPriceNoContextBody true).status ≠ 500 := by
  have h : (createCheckoutSessionPart1 zeroPriceNoContextBody true).status =
      400 := by
    unfold createCheckoutSessionPart1 zeroPriceNoContextBody
    norm_num [parseFloatJs, jsMul, jsRound, jsLe]
  exact ⟨h, by rw [h]; decide⟩

/-- C10 (amended): every `part_001` create-checkout-session request
whose body has no `context` field and which is not rejected by the
`amountCents <= 0` guard throws a `TypeError` on `context.substring`
while the metadata is being built — before the provider session is
created — and ends in the catch branch with a `500` and no provider
call. -/
theorem C10_missing_context_throws_into_catch_500
    (body : Part1Body) (providerOk : Bool)
    (hctx : body.context = .undefined)
    (hgate : jsLe (jsRound (jsMul (parseFloatJs body.finalPrice)
      (.val 100))) (.val 0) = false) :
    createCheckoutSessionPart1 body providerOk =
      { status := 500, providerRequest := none } := by
  unfold createCheckoutSessionPart1
  simp [hgate, hctx, jsSubstringTo500]

/-- C10 witness: a body with no price and no context passes the amount
guard (NaN compares false) and is answered `500` with no provider
call. -/
theorem C10_witness :
    noContextBody.context = .undefined ∧
    jsLe (jsRound (jsMul (parseFloatJs noContextBody.finalPrice)
      (.val 100))) (.val 0) = false ∧
    createCheckoutSessionPart1 noContextBody true =
      { status := 500, providerRequest := none } :=
  ⟨rfl, rfl,
   C10_missing_context_throws_into_catch_500 noContextBody true rfl rfl⟩

end BuyerSite
